import Mathlib

/-!
Verification development for the collateral-optimization core (`src/main.py`).

The single entry point `run` parses the input payload, builds one LP with
PuLP (variables `Q[i,j]`, a cost objective, and three constraint families),
hands it to an external solver, and extracts either the structured optimal
result or a structured "no optimal solution" result.

The shallow embedding below translates that code:
* numeric values are rationals (`ℚ`);
* a Python dict built by a last-write-wins loop is an association list
  queried by `lastAssoc` (the last matching entry wins, exactly as
  repeated `d[k] = v` assignments do);
* the literal `float('inf')` the code can place on a constraint's
  right-hand side is `⊤ : WithTop ℚ`;
* the external solver is a parameter: `run` takes a function from the
  built LP to a `SolverOutcome`, where a Python exception raised by
  `prob.solve` is `SolverOutcome.err` and a returned PuLP status code is
  `SolverOutcome.ok` together with the per-variable values;
* the returned Python dicts are the `Output` structure; the `status` key,
  present only on the non-optimal path, is an `Option String`.
-/

namespace Collateral

/-- One element of the `assets` input sequence. -/
structure Asset where
  asset_id : String
  available_quantity : ℚ
  market_value : ℚ
  tier_rating : ℚ
deriving DecidableEq

/-- One element of the `accounts` input sequence. -/
structure Account where
  account_id : String
  collateral_requirement : ℚ
deriving DecidableEq

/-- One element of the `haircut_matrix` input sequence. -/
structure HaircutEntry where
  asset_id : String
  account_id : String
  haircut : ℚ
deriving DecidableEq

/-- One element of the `limit_matrix` input sequence. -/
structure LimitEntry where
  asset_id : String
  account_id : String
  max_allocation : ℚ
deriving DecidableEq

/-- The `input_data` payload consumed by `run`. -/
structure InputData where
  assets : List Asset
  accounts : List Account
  haircut_matrix : List HaircutEntry
  limit_matrix : List LimitEntry
deriving DecidableEq

/-- Lookup in an association list where the LAST matching entry wins: the
result of filling a Python dict by iterating the list and assigning
`d[k] = v` for each entry, then calling `d.get k`. -/
def lastAssoc {α β : Type} [DecidableEq α] (l : List (α × β)) (k : α) : Option β :=
  l.foldl (fun acc e => if e.1 = k then some e.2 else acc) none

/-- `I`: the asset-id list, in input order (line 29 of `main.py`). -/
def assetIds (inp : InputData) : List String :=
  inp.assets.map (·.asset_id)

/-- `J`: the account-id list, in input order (line 36). -/
def accountIds (inp : InputData) : List String :=
  inp.accounts.map (·.account_id)

/-- `Q_i[i]`: the dict from asset id to `available_quantity` (line 30).
The `getD 0` default is unreachable for ids drawn from `assetIds`. -/
def Q_i (inp : InputData) (i : String) : ℚ :=
  (lastAssoc (inp.assets.map fun a => (a.asset_id, a.available_quantity)) i).getD 0

/-- `V_i[i]`: the dict from asset id to `market_value` (line 31). -/
def V_i (inp : InputData) (i : String) : ℚ :=
  (lastAssoc (inp.assets.map fun a => (a.asset_id, a.market_value)) i).getD 0

/-- `omega_i[i]`: the dict from asset id to `tier_rating` (line 32). -/
def omega_i (inp : InputData) (i : String) : ℚ :=
  (lastAssoc (inp.assets.map fun a => (a.asset_id, a.tier_rating)) i).getD 0

/-- `C_j[j]`: the dict from account id to `collateral_requirement` (line 37). -/
def C_j (inp : InputData) (j : String) : ℚ :=
  (lastAssoc (inp.accounts.map fun a => (a.account_id, a.collateral_requirement)) j).getD 0

/-- The entries of the `H_ij` dict in insertion order (lines 40-46). -/
def H_ij (inp : InputData) : List ((String × String) × ℚ) :=
  inp.haircut_matrix.map fun e => ((e.asset_id, e.account_id), e.haircut)

/-- `H_ij.get((i, j))` without a default: `some` iff the pair has an entry,
the last duplicate winning as in the Python dict. -/
def H_lookup (inp : InputData) (i j : String) : Option ℚ :=
  lastAssoc (H_ij inp) (i, j)

/-- `H_ij.get((i, j), 1)`: the haircut coefficient actually used by the
objective and the collateral constraints (lines 71 and 77). -/
def H_get (inp : InputData) (i j : String) : ℚ :=
  (H_lookup inp i j).getD 1

/-- The entries of the `L_ij` dict in insertion order (lines 49-55). -/
def L_ij (inp : InputData) : List ((String × String) × ℚ) :=
  inp.limit_matrix.map fun e => ((e.asset_id, e.account_id), e.max_allocation)

/-- `L_ij.get((i, j))` without a default. -/
def L_lookup (inp : InputData) (i j : String) : Option ℚ :=
  lastAssoc (L_ij inp) (i, j)

/-- `L_ij.get((i, j), float('inf'))`: the right-hand side of the allocation
limit constraint (line 86); `⊤` is the literal `float('inf')`. -/
def L_get (inp : InputData) (i j : String) : WithTop ℚ :=
  ((L_lookup inp i j).map (fun q => (q : WithTop ℚ))).getD ⊤

/-- The key list `[(i, j) for i in I for j in J]` used for the variable
dict, the objective, the allocation-limit loop and the extraction loop
(lines 66, 71, 84-86, 109-116). -/
def pairs (inp : InputData) : List (String × String) :=
  (assetIds inp).flatMap fun i => (accountIds inp).map fun j => (i, j)

/-- The sense of a linear constraint. -/
inductive Sense where
  | geq
  | leq
deriving DecidableEq

/-- One named linear constraint `Σ coeff · Q[key] (≥|≤) rhs` as handed to
PuLP; `rhs = ⊤` records a literal `float('inf')` right-hand side. -/
structure Constraint where
  cname : String
  terms : List ((String × String) × ℚ)
  sense : Sense
  rhs : WithTop ℚ
deriving DecidableEq

/-- The LP handed to the solver: the continuous variables (each with lower
bound 0 and no upper bound), the minimized objective as a list of
(variable key, coefficient) terms, and the constraints in insertion
order. -/
structure LP where
  varKeys : List (String × String)
  objective : List ((String × String) × ℚ)
  constraints : List Constraint
deriving DecidableEq

/-- Lines 62-86 of `main.py`: the model builder. Variables `Q[i,j] ≥ 0`
over the full cross product; objective
`Σ omega_i[i] · Q[i,j] · V_i[i] · H_ij.get((i,j), 1)`; constraint family 1
(collateral requirement, one per account), family 2 (asset quantity limit,
one per asset), family 3 (allocation limit, one per pair, default
right-hand side `float('inf')`). -/
def buildLP (inp : InputData) : LP where
  varKeys := pairs inp
  objective := (pairs inp).map fun p =>
    (p, omega_i inp p.1 * V_i inp p.1 * H_get inp p.1 p.2)
  constraints :=
    ((accountIds inp).map fun j =>
      { cname := "Collateral_Requirement_Account_" ++ j
        terms := (assetIds inp).map fun i => ((i, j), V_i inp i * H_get inp i j)
        sense := Sense.geq
        rhs := (C_j inp j : WithTop ℚ) })
    ++ ((assetIds inp).map fun i =>
      { cname := "Asset_Quantity_Limit_Asset_" ++ i
        terms := (accountIds inp).map fun j => ((i, j), (1 : ℚ))
        sense := Sense.leq
        rhs := (Q_i inp i : WithTop ℚ) })
    ++ ((pairs inp).map fun p =>
      { cname := "Allocation_Limit_Asset_" ++ p.1 ++ "_Account_" ++ p.2
        terms := [(p, V_i inp p.1)]
        sense := Sense.leq
        rhs := L_get inp p.1 p.2 })

/-- What `prob.solve(solver)` can do: return normally, leaving a PuLP
status code and per-variable values on the problem, or raise (solver
crash, solver unavailable, ...), which the code does not catch. -/
inductive SolverOutcome where
  | ok (status : Int) (values : String × String → ℚ)
  | err (msg : String)

/-- PuLP's `LpStatusOptimal`. -/
def LpStatusOptimal : Int := 1

/-- `value(prob.objective)`: the objective expression evaluated at the
solver's variable values. -/
def objectiveValue (lp : LP) (vals : String × String → ℚ) : ℚ :=
  (lp.objective.map fun t => t.2 * vals t.1).sum

/-- One element of the returned `allocation_matrix` (lines 112-116). -/
structure AllocationEntry where
  asset_id : String
  account_id : String
  allocation_fraction : ℚ
deriving DecidableEq

/-- The `output` object of the returned payload; `status` is the key that
is present only on the non-optimal path (line 100). -/
structure Output where
  allocation_matrix : List AllocationEntry
  total_collateral_cost : Option ℚ
  status : Option String
deriving DecidableEq

/-- Lines 62-131 of `main.py` around the external solve: build the LP,
invoke the solver, and extract. An exception raised by the solver
propagates (`Except.error`); a non-optimal status returns the structured
no-optimal result; an optimal status returns the allocation matrix over
the full cross product with the raw solver values and
`value(prob.objective)` as the cost. -/
def run (inp : InputData) (solve : LP → SolverOutcome) : Except String Output :=
  let prob := buildLP inp
  match solve prob with
  | SolverOutcome.err m => Except.error m
  | SolverOutcome.ok status vals =>
      if status ≠ LpStatusOptimal then
        Except.ok
          { allocation_matrix := []
            total_collateral_cost := none
            status := some "No optimal solution found." }
      else
        Except.ok
          { allocation_matrix := (pairs inp).map fun p =>
              { asset_id := p.1
                account_id := p.2
                allocation_fraction := vals p }
            total_collateral_cost := some (objectiveValue prob vals)
            status := none }

/-- Spec formulation of `haircut(i, j)` (§4.1): look up the haircut table
for the pair and default to 1.0 when absent. Stated declaratively over the
raw `haircut_matrix` sequence (the entry for the pair — the last one, for
the dict's last-write-wins semantics), to be compared with the code's
`H_get`. -/
def spec_haircut (inp : InputData) (i j : String) : ℚ :=
  (((inp.haircut_matrix.filter fun e => e.asset_id = i ∧ e.account_id = j).getLast?).map
      HaircutEntry.haircut).getD 1

/-- Spec formulation of constraint family 1 (§4.1): for account `j`,
`Σ_i Q[i,j] · market_value[i] · haircut(i,j) ≥ collateral_requirement[j]`,
to be compared with the code's built constraints. -/
def spec_sufficiency (inp : InputData) (j : String) : Constraint where
  cname := "Collateral_Requirement_Account_" ++ j
  terms := (assetIds inp).map fun i => ((i, j), V_i inp i * spec_haircut inp i j)
  sense := Sense.geq
  rhs := (C_j inp j : WithTop ℚ)

/-- Spec formulation of constraint family 2 (§4.1): for asset `i`,
`Σ_j Q[i,j] ≤ available_quantity[i]` — a sum of units, every variable with
coefficient 1. -/
def spec_inventory (inp : InputData) (i : String) : Constraint where
  cname := "Asset_Quantity_Limit_Asset_" ++ i
  terms := (accountIds inp).map fun j => ((i, j), (1 : ℚ))
  sense := Sense.leq
  rhs := (Q_i inp i : WithTop ℚ)

/-- Spec formulation of P5: the total collateral cost recomputed
independently from a returned allocation matrix, as
`Σ tier_rating[i] · Q[i,j] · market_value[i] · haircut(i,j)`. -/
def recomputedCost (inp : InputData) (m : List AllocationEntry) : ℚ :=
  (m.map fun e =>
    omega_i inp e.asset_id * e.allocation_fraction * V_i inp e.asset_id *
      spec_haircut inp e.asset_id e.account_id).sum

/-- A one-asset, one-account input with no haircut and no limit entries
(the spec's Scenario A data). -/
def inp1 : InputData where
  assets := [{ asset_id := "A1", available_quantity := 100, market_value := 1,
               tier_rating := 1 }]
  accounts := [{ account_id := "Acc1", collateral_requirement := 50 }]
  haircut_matrix := []
  limit_matrix := []

/-- An input with zero assets but one account with a positive
requirement. -/
def inp0 : InputData where
  assets := []
  accounts := [{ account_id := "Acc1", collateral_requirement := 50 }]
  haircut_matrix := []
  limit_matrix := []

/-- An input that is invalid per §3/§7: a negative `available_quantity`
and a haircut entry referencing an unknown asset id. -/
def badInput : InputData where
  assets := [{ asset_id := "A1", available_quantity := -5, market_value := 1,
               tier_rating := 1 }]
  accounts := [{ account_id := "Acc1", collateral_requirement := 50 }]
  haircut_matrix := [{ asset_id := "ZZZ", account_id := "Acc1", haircut := 1/2 }]
  limit_matrix := []

/-! ### Dictionary semantics -/

theorem lastAssoc_concat {α β : Type} [DecidableEq α] (l : List (α × β)) (e : α × β)
    (k : α) :
    lastAssoc (l ++ [e]) k = if e.1 = k then some e.2 else lastAssoc l k := by
  simp [lastAssoc, List.foldl_append]

theorem lastAssoc_map_filter {γ β : Type} (key₁ key₂ : γ → String) (val : γ → β)
    (l : List γ) (i j : String) :
    lastAssoc (l.map fun e => ((key₁ e, key₂ e), val e)) (i, j)
      = ((l.filter fun e => key₁ e = i ∧ key₂ e = j).getLast?).map val := by
  induction l using List.reverseRecOn with
  | nil => rfl
  | append_singleton l e ih =>
      by_cases h : key₁ e = i ∧ key₂ e = j
      · simp [List.map_append, lastAssoc_concat, List.filter_append, h.1, h.2,
          List.getLast?_concat]
      · simp only [List.map_append, List.map_cons, List.map_nil, lastAssoc_concat,
          List.filter_append, Prod.mk.injEq]
        simp [h, ih]

theorem H_lookup_eq (inp : InputData) (i j : String) :
    H_lookup inp i j
      = ((inp.haircut_matrix.filter fun e => e.asset_id = i ∧ e.account_id = j).getLast?).map
          HaircutEntry.haircut := by
  rw [H_lookup, H_ij]
  exact lastAssoc_map_filter (fun e => e.asset_id) (fun e => e.account_id)
    HaircutEntry.haircut inp.haircut_matrix i j

theorem L_lookup_eq (inp : InputData) (i j : String) :
    L_lookup inp i j
      = ((inp.limit_matrix.filter fun e => e.asset_id = i ∧ e.account_id = j).getLast?).map
          LimitEntry.max_allocation := by
  rw [L_lookup, L_ij]
  exact lastAssoc_map_filter (fun e => e.asset_id) (fun e => e.account_id)
    LimitEntry.max_allocation inp.limit_matrix i j

theorem H_get_eq_spec (inp : InputData) (i j : String) :
    H_get inp i j = spec_haircut inp i j := by
  rw [H_get, H_lookup_eq]; rfl

/-! ### Model-builder congruence -/

theorem buildLP_congr {a b : InputData}
    (hA : a.assets = b.assets) (hB : a.accounts = b.accounts)
    (hH : ∀ i j, H_get a i j = H_get b i j)
    (hL : ∀ i j, L_get a i j = L_get b i j) :
    buildLP a = buildLP b := by
  have h1 : assetIds a = assetIds b := by simp only [assetIds, hA]
  have h2 : accountIds a = accountIds b := by simp only [accountIds, hB]
  have h3 : ∀ i, Q_i a i = Q_i b i := fun i => by simp only [Q_i, hA]
  have h4 : ∀ i, V_i a i = V_i b i := fun i => by simp only [V_i, hA]
  have h5 : ∀ i, omega_i a i = omega_i b i := fun i => by simp only [omega_i, hA]
  have h6 : ∀ j, C_j a j = C_j b j := fun j => by simp only [C_j, hB]
  simp only [buildLP, pairs, h1, h2, h3, h4, h5, h6, hH, hL]

/-! ### Claims -/

/-- C1: the claim says the LP contains no pairwise allocation-cap
constraint for a pair absent from `limit_matrix`, and that no literal
+infinity right-hand side is ever passed to the solver. The code refutes
this: on `inp1`, whose `limit_matrix` is empty, the built LP contains the
cap constraint for `(A1, Acc1)` with right-hand side `⊤` — the literal
`float('inf')` of line 86 of `main.py`. -/
theorem cap_constraint_emitted_without_limit_entry :
    inp1.limit_matrix = []
  ∧ { cname := "Allocation_Limit_Asset_A1_Account_Acc1"
      terms := [(("A1", "Acc1"), (1 : ℚ))]
      sense := Sense.leq
      rhs := (⊤ : WithTop ℚ) } ∈ (buildLP inp1).constraints := by
  exact ⟨rfl, by decide⟩

/-- C2: for every input the built LP's constraint list is exactly the
spec's collateral-sufficiency constraints (one per account, coefficients
`market_value[i] · haircut(i,j)` with haircut defaulting to 1.0, sense ≥,
right-hand side `collateral_requirement[j]`) followed by the spec's
inventory constraints (one per asset, unit coefficients, sense ≤,
right-hand side `available_quantity[i]`), followed by the allocation-cap
constraints. -/
theorem constraint_families_match_spec (inp : InputData) :
    ∃ caps, (buildLP inp).constraints
      = (accountIds inp).map (spec_sufficiency inp)
        ++ (assetIds inp).map (spec_inventory inp) ++ caps := by
  refine ⟨(pairs inp).map fun p =>
    { cname := "Allocation_Limit_Asset_" ++ p.1 ++ "_Account_" ++ p.2
      terms := [(p, V_i inp p.1)]
      sense := Sense.leq
      rhs := L_get inp p.1 p.2 }, ?_⟩
  simp only [buildLP]
  congr 1
  congr 1
  refine List.map_congr_left fun j _ => ?_
  simp [spec_sufficiency, H_get_eq_spec]

/-- C3: whenever the solver reports an optimal solution, the returned
`total_collateral_cost` equals
`Σ tier_rating[i] · Q[i,j] · market_value[i] · haircut(i,j)` recomputed
from the quantities in the returned `allocation_matrix` (exactly, with no
tolerance needed: `value(prob.objective)` evaluates the same expression at
the same values). -/
theorem objective_recomputable (inp : InputData) (vals : String × String → ℚ) :
    ∃ out, run inp (fun _ => SolverOutcome.ok LpStatusOptimal vals) = Except.ok out
      ∧ out.total_collateral_cost = some (recomputedCost inp out.allocation_matrix) := by
  refine ⟨_, rfl, ?_⟩
  simp only [recomputedCost, objectiveValue, buildLP, List.map_map]
  congr 1
  congr 1
  refine List.map_congr_left fun p _ => ?_
  simp only [Function.comp_apply]
  rw [H_get_eq_spec]
  ring

/-- C4: the claim says negative allocation values within solver tolerance
of zero are clamped to exactly zero before inclusion in the output. The
code refutes this: it appends `varValue` unchanged (lines 111-116), so an
optimal outcome whose value for `(A1, Acc1)` is `-1/1000000` yields an
output containing that negative entry as-is. -/
theorem negative_value_not_clamped :
    ∃ out, run inp1 (fun _ => SolverOutcome.ok LpStatusOptimal fun _ => -(1/1000000))
        = Except.ok out
      ∧ { asset_id := "A1", account_id := "Acc1",
          allocation_fraction := -(1/1000000) } ∈ out.allocation_matrix := by
  refine ⟨_, rfl, ?_⟩
  simp [pairs, assetIds, accountIds, inp1]

/-- C5: a solver-execution error — an exception raised by `prob.solve`,
which the code does not catch — propagates to the caller as a hard
failure (`Except.error`), which is by construction distinct from the
structured `Except.ok` no-optimal result returned for infeasibility. -/
theorem solver_error_propagates (inp : InputData) (msg : String) :
    run inp (fun _ => SolverOutcome.err msg) = Except.error msg := rfl

/-- C6: the claim says an input with a negative numeric value or a
haircut entry referencing an unknown asset id fails before model
construction. The code refutes this: on `badInput` (available quantity
-5, haircut entry for unknown asset "ZZZ") the model is built with no
error — the negative quantity lands as the inventory constraint's
right-hand side and the unknown-id entry is silently ignored, the real
pair still receiving the default haircut 1. -/
theorem invalid_input_not_rejected :
    Q_i badInput "A1" = -5
  ∧ (buildLP badInput).varKeys = [("A1", "Acc1")]
  ∧ { cname := "Asset_Quantity_Limit_Asset_A1"
      terms := [(("A1", "Acc1"), (1 : ℚ))]
      sense := Sense.leq
      rhs := ((-5 : ℚ) : WithTop ℚ) } ∈ (buildLP badInput).constraints
  ∧ H_get badInput "A1" "Acc1" = 1 := by
  refine ⟨by decide, by decide, by decide, by decide⟩

/-- C7: every non-optimal solver status makes `run` return normally with
the structured result: empty allocation matrix, null cost, and the
descriptive status string. -/
theorem non_optimal_returns_structured (inp : InputData) (status : Int)
    (vals : String × String → ℚ) (h : status ≠ LpStatusOptimal) :
    run inp (fun _ => SolverOutcome.ok status vals)
      = Except.ok { allocation_matrix := []
                    total_collateral_cost := none
                    status := some "No optimal solution found." } := by
  simp only [run]
  rw [if_pos h]

/-- Witness for C7 at the infeasible status `-1` on `inp1`. -/
theorem non_optimal_returns_structured_witness :
    ((-1 : Int) ≠ LpStatusOptimal)
  ∧ run inp1 (fun _ => SolverOutcome.ok (-1) fun _ => 0)
      = Except.ok { allocation_matrix := []
                    total_collateral_cost := none
                    status := some "No optimal solution found." } :=
  ⟨by decide, non_optimal_returns_structured inp1 (-1) (fun _ => 0) (by decide)⟩

/-- C8: appending an explicit haircut entry of 1.0 for a pair absent from
`haircut_matrix` yields the identical LP — same variable keys, same
objective coefficients, same constraints. -/
theorem default_haircut_equiv (inp : InputData) (i0 j0 : String)
    (h : H_lookup inp i0 j0 = none) :
    buildLP { inp with haircut_matrix := inp.haircut_matrix ++ [⟨i0, j0, 1⟩] }
      = buildLP inp := by
  refine buildLP_congr rfl rfl (fun i j => ?_) (fun i j => rfl)
  have hd : H_ij { inp with haircut_matrix := inp.haircut_matrix ++ [⟨i0, j0, 1⟩] }
      = H_ij inp ++ [((i0, j0), (1 : ℚ))] := by
    simp [H_ij]
  rw [H_get, H_get, H_lookup, H_lookup, hd, lastAssoc_concat]
  by_cases hij : (i0, j0) = (i, j)
  · have hi : i0 = i := congrArg Prod.fst hij
    have hj : j0 = j := congrArg Prod.snd hij
    rw [if_pos hij, ← hi, ← hj]
    rw [H_lookup] at h
    rw [h]
    rfl
  · rw [if_neg hij]

/-- Witness for C8 on `inp1`, whose haircut matrix has no entry for
`(A1, Acc1)`. -/
theorem default_haircut_equiv_witness :
    H_lookup inp1 "A1" "Acc1" = none
  ∧ buildLP { inp1 with haircut_matrix := inp1.haircut_matrix ++ [⟨"A1", "Acc1", 1⟩] }
      = buildLP inp1 :=
  ⟨rfl, default_haircut_equiv inp1 "A1" "Acc1" rfl⟩

/-- C9 counterexample: the claim says zero assets or zero accounts yields
a model with no constraints; on `inp0` (zero assets, one account with
requirement 50) the built model's constraint list is nonempty — it holds
the empty-sum collateral constraint `0 ≥ 50`. -/
theorem empty_assets_model_counterexample :
    inp0.assets = [] ∧ (buildLP inp0).constraints ≠ [] := by
  exact ⟨rfl, by decide⟩

/-- C9 amended: with zero assets or zero accounts the built model has no
variables and objective 0, every constraint it still holds has an empty
sum (one `0 ≥ collateral_requirement[j]` per account when assets are
empty, one `0 ≤ available_quantity[i]` per asset when accounts are
empty); the model is truly constraint-free only when both lists are
empty; and `run` handles the empty cross product, returning an empty
allocation matrix without erroring for every solver status. -/
theorem empty_entities_model (inp : InputData)
    (h : assetIds inp = [] ∨ accountIds inp = []) :
    (buildLP inp).varKeys = []
  ∧ (buildLP inp).objective = []
  ∧ (∀ c ∈ (buildLP inp).constraints, c.terms = [])
  ∧ (assetIds inp = [] → accountIds inp = [] →
      buildLP inp = { varKeys := [], objective := [], constraints := [] })
  ∧ ∀ status vals, ∃ out,
      run inp (fun _ => SolverOutcome.ok status vals) = Except.ok out
        ∧ out.allocation_matrix = [] := by
  have hp : pairs inp = [] := by
    cases h with
    | inl h => simp [pairs, h]
    | inr h => simp [pairs, h]
  refine ⟨by simp [buildLP, hp], by simp [buildLP, hp], ?_, ?_, ?_⟩
  · intro c hc
    simp only [buildLP, hp, List.map_nil, List.append_nil, List.mem_append,
      List.mem_map] at hc
    rcases hc with hc | hc
    · obtain ⟨j, hjm, rfl⟩ := hc
      cases h with
      | inl h => simp [h]
      | inr h => rw [h] at hjm; simp at hjm
    · obtain ⟨i, him, rfl⟩ := hc
      cases h with
      | inl h => rw [h] at him; simp at him
      | inr h => simp [h]
  · intro hI hJ
    simp [buildLP, pairs, hI, hJ]
  · intro status vals
    by_cases hs : status = LpStatusOptimal
    · subst hs
      refine ⟨_, rfl, ?_⟩
      simp [hp]
    · refine ⟨_, by simp only [run]; rw [if_pos hs], ?_⟩
      rfl

/-- Witness for C9 amended on `inp0` (zero assets). -/
theorem empty_entities_model_witness :
    assetIds inp0 = []
  ∧ (buildLP inp0).varKeys = []
  ∧ (buildLP inp0).objective = [] :=
  ⟨rfl, (empty_entities_model inp0 (Or.inl rfl)).1,
    (empty_entities_model inp0 (Or.inl rfl)).2.1⟩

/-- C10: when `haircut_matrix` (or `limit_matrix`) contains duplicate
entries for the same pair, the dict the code builds maps the pair to the
value of the LAST entry in the input sequence — earlier duplicates are
silently overwritten — and the haircut the model uses is that last value
(defaulting to 1 when no entry matches). -/
theorem duplicate_entries_last_wins (inp : InputData) (i j : String) :
    H_lookup inp i j
      = ((inp.haircut_matrix.filter fun e =>
            e.asset_id = i ∧ e.account_id = j).getLast?).map HaircutEntry.haircut
  ∧ L_lookup inp i j
      = ((inp.limit_matrix.filter fun e =>
            e.asset_id = i ∧ e.account_id = j).getLast?).map LimitEntry.max_allocation
  ∧ H_get inp i j
      = (((inp.haircut_matrix.filter fun e =>
            e.asset_id = i ∧ e.account_id = j).getLast?).map HaircutEntry.haircut).getD 1 :=
  ⟨H_lookup_eq inp i j, L_lookup_eq inp i j, by rw [H_get, H_lookup_eq]⟩

end Collateral
